import Mathlib

/-!
Verification of the mercury reliable-datagram protocol (Rust crate `protocol`)
against its design specification.

The Rust sources are shallowly embedded: `u32` values are `Nat` with explicit
`% 2^32` wherever the Rust arithmetic can wrap (release-mode semantics),
`usize` values are `Nat`, `VecDeque<Segment>` is `List Segment`, and byte
buffers are `List Nat`.  `input` is modelled over the list of wire records the
cursor loop decodes (one record per loop iteration, fields read in the order
`session_id, command, fragment_id, window_size, timestamp, sequence_num,
unacked_sequence_num, len, data`); the raw big-endian byte parsing itself is
not at issue in any claim.  Floating-point fields (bandwidth EWMAs, `rtt: f32`)
are omitted: no modelled operation reads or writes them.
-/

namespace Mercury

/-- 2^32, the modulus of `u32` arithmetic. -/
def U32MOD : Nat := 4294967296

/-- `u32::max_value()`, the sentinel used by `SequenceBuffer`. -/
def U32MAX : Nat := 4294967295

/-- Wrapping `u32` addition (Rust release-mode `+` on `u32`). -/
def u32add (a b : Nat) : Nat := (a + b) % U32MOD

/-- Wrapping `u32` multiplication (Rust release-mode `*` on `u32`). -/
def u32mul (a b : Nat) : Nat := (a * b) % U32MOD

/-- Reinterpretation `x as i32` of a `u32` value. -/
def toI32 (x : Nat) : Int :=
  if x < 2147483648 then (x : Int) else (x : Int) - (U32MOD : Int)

/-- `fn time_diff(later: u32, earlier: u32) -> i32 { later as i32 - earlier as i32 }` -/
def time_diff (later earlier : Nat) : Int := toI32 later - toI32 earlier

/-- `fn bound(lower, value, upper) -> u32 { cmp::min(cmp::max(lower, value), upper) }` -/
def bound (lower value upper : Nat) : Nat := min (max lower value) upper

/-! Protocol constants from `lib.rs`. -/

def RTO_NDL : Nat := 30
def RTO_MIN : Nat := 100
def RTO_DEF : Nat := 200
def RTO_MAX : Nat := 60000
def CMD_PUSH : Nat := 81
def CMD_ACK : Nat := 82
def CMD_WASK : Nat := 83
def CMD_WINS : Nat := 84
def ASK_SEND : Nat := 1
def ASK_TELL : Nat := 2
def SEND_WINDOW_SIZE : Nat := 32
def RECV_WINDOW_SIZE : Nat := 32
def DEFAULT_MTU : Nat := 1400
def PROTOCOL_OVERHEAD : Nat := 24
def DEADLINK : Nat := 20
def THRESH_INIT : Nat := 2
def THRESH_MIN : Nat := 2
def PROBE_INIT : Nat := 7000
def PROBE_LIMIT : Nat := 120000

/-- `segment.rs`: the segment record.  `data: BytesMut` is a byte list; the
engine-only shadow fields (`resend_time`, `rto`, `fastack`, `xmit`) are kept.
`Segment::default()` zeroes every field, hence the field defaults. -/
structure Segment where
  session_id : Nat := 0
  command : Nat := 0
  fragment_id : Nat := 0
  window_size : Nat := 0
  timestamp : Nat := 0
  sequence_num : Nat := 0
  unacked_sequence_num : Nat := 0
  resend_time : Nat := 0
  rto : Nat := 0
  fastack : Nat := 0
  xmit : Nat := 0
  data : List Nat := []
deriving Repr, DecidableEq

/-- `Segment::default()`: every field zero, empty data. -/
instance : Inhabited Segment := ⟨{}⟩

/-- `connection.rs`: the `ReliableConnection` state. -/
structure ConnState where
  session_id : Nat
  max_transmission_unit : Nat
  max_segment_size : Nat
  connection_state : Nat
  unacked_send_sequence_num : Nat
  next_send_sequence_num : Nat
  next_recv_sequence_num : Nat
  ssthresh : Nat
  floating_rtt : Nat
  static_rtt : Nat
  calculated_rto : Nat
  minimum_rto : Nat
  send_window_size : Nat
  recv_window_size : Nat
  remote_window_size : Nat
  congestion_window_size : Nat
  probe : Nat
  current_time : Nat
  interval : Nat
  next_flush_time : Nat
  update_called : Bool
  xmit : Nat
  nodelay : Nat
  next_probe_time : Nat
  probe_wait : Nat
  dead_link : Nat
  incr : Nat
  send_queue : List Segment
  recv_queue : List Segment
  send_buffer : List Segment
  recv_buffer : List Segment
  ack_list : List (Nat × Nat)
  payload_buffer : List Nat
  fast_resend : Nat
  use_congestion_control : Bool
  in_streaming_mode : Bool
deriving Repr, DecidableEq

/-- `ReliableConnection::new(session_id)`. -/
def ReliableConnection.new (session_id : Nat) : ConnState :=
  { session_id := session_id
    max_transmission_unit := DEFAULT_MTU
    max_segment_size := DEFAULT_MTU - PROTOCOL_OVERHEAD
    connection_state := 0
    unacked_send_sequence_num := 0
    next_send_sequence_num := 0
    next_recv_sequence_num := 0
    ssthresh := THRESH_INIT
    floating_rtt := 0
    static_rtt := 0
    calculated_rto := RTO_DEF
    minimum_rto := RTO_MIN
    send_window_size := SEND_WINDOW_SIZE
    recv_window_size := RECV_WINDOW_SIZE
    remote_window_size := RECV_WINDOW_SIZE
    congestion_window_size := 0
    probe := 0
    current_time := 0
    interval := 0
    next_flush_time := 0
    update_called := false
    xmit := 0
    nodelay := 0
    next_probe_time := 0
    probe_wait := 0
    dead_link := DEADLINK
    incr := 0
    send_queue := []
    recv_queue := []
    send_buffer := []
    recv_buffer := []
    ack_list := []
    payload_buffer := []
    fast_resend := 0
    use_congestion_control := false
    in_streaming_mode := false }

/-- `errors.rs`: `ProtocolError` (the `IOError` payload is dropped; no modelled
path constructs it). -/
inductive ProtocolError where
  | EmptyPayload
  | FragmentsGreaterThanWindowSize
  | IncompleteMessage
  | EmptyRecvQueue
  | BufferTooSmall
  | InvalidSessionId
  | InvalidCommand
  | IOError
  | PayloadTooLarge (size max_size : Nat)
  | InvalidStreamId
  | InvalidConfiguration (reason : String)
deriving Repr, DecidableEq

/-- `BytesMut::resize(n, 0)`: truncate or extend with zero bytes. -/
def bytes_resize (l : List Nat) (n : Nat) : List Nat :=
  l.take n ++ List.replicate (n - l.length) 0

/-- `ReliableConnection::parse_unacked`, loop body on the `send_buffer` deque:
`while let Some(segment) = self.send_buffer.pop_front() { if una <= segment.sequence_num { break; } }`.
Note the segment is popped before the test, so the first segment whose
`sequence_num` is `>= una` is removed as well. -/
def parse_unacked_buf (unacked_sequence_num : Nat) : List Segment → List Segment
  | [] => []
  | segment :: rest =>
    if unacked_sequence_num ≤ segment.sequence_num then rest
    else parse_unacked_buf unacked_sequence_num rest

/-- `ReliableConnection::parse_unacked`. -/
def ConnState.parse_unacked (s : ConnState) (unacked_sequence_num : Nat) : ConnState :=
  { s with send_buffer := parse_unacked_buf unacked_sequence_num s.send_buffer }

/-- `ReliableConnection::shrink_buffer`. -/
def ConnState.shrink_buffer (s : ConnState) : ConnState :=
  { s with unacked_send_sequence_num :=
      match s.send_buffer with
      | segment :: _ => segment.sequence_num
      | [] => s.next_send_sequence_num }

/-- `ReliableConnection::parse_ack`, the scan over `send_buffer`:
remove the first segment with the acked `sequence_num`, stopping early once a
larger `sequence_num` is seen. -/
def parse_ack_buf (sequence_num : Nat) : List Segment → List Segment
  | [] => []
  | segment :: rest =>
    if sequence_num = segment.sequence_num then rest
    else if sequence_num < segment.sequence_num then segment :: rest
    else segment :: parse_ack_buf sequence_num rest

/-- `ReliableConnection::parse_ack` with its window guard. -/
def ConnState.parse_ack (s : ConnState) (sequence_num : Nat) : ConnState :=
  if sequence_num < s.unacked_send_sequence_num ∨
      s.next_send_sequence_num ≤ sequence_num then s
  else { s with send_buffer := parse_ack_buf sequence_num s.send_buffer }

/-- `ReliableConnection::parse_fastack`, the scan over `send_buffer`:
increment `fastack` of every segment whose `sequence_num` differs from the
acked one, stopping at the first segment with a larger `sequence_num`. -/
def parse_fastack_buf (sequence_num : Nat) : List Segment → List Segment
  | [] => []
  | segment :: rest =>
    if sequence_num < segment.sequence_num then segment :: rest
    else if sequence_num ≠ segment.sequence_num then
      { segment with fastack := u32add segment.fastack 1 } ::
        parse_fastack_buf sequence_num rest
    else segment :: parse_fastack_buf sequence_num rest

/-- `ReliableConnection::parse_fastack` with its window guard. -/
def ConnState.parse_fastack (s : ConnState) (sequence_num : Nat) : ConnState :=
  if sequence_num < s.unacked_send_sequence_num ∨
      s.next_send_sequence_num ≤ sequence_num then s
  else { s with send_buffer := parse_fastack_buf sequence_num s.send_buffer }

/-- `ReliableConnection::update_ack(rtt)`: the RTT/RTO estimator
(`>> 1`, `>> 2`, `>> 3` are `/2`, `/4`, `/8`). -/
def ConnState.update_ack (s : ConnState) (rtt : Nat) : ConnState :=
  let s :=
    if s.static_rtt = 0 then
      { s with static_rtt := rtt, floating_rtt := rtt / 2 }
    else
      let delta := if s.static_rtt < rtt then rtt - s.static_rtt else s.static_rtt - rtt
      let floating_rtt := (u32add (u32mul 3 s.floating_rtt) delta) / 4
      let static_rtt := (u32add (u32mul 7 s.static_rtt) rtt) / 8
      let static_rtt := if static_rtt < 1 then 1 else static_rtt
      { s with floating_rtt := floating_rtt, static_rtt := static_rtt }
  let rto := u32add s.static_rtt (max s.interval (u32mul 4 s.floating_rtt))
  { s with calculated_rto := bound s.minimum_rto rto RTO_MAX }

/-- `ReliableConnection::parse_data`, the reverse scan over `recv_buffer`:
called on `recv_buffer.reverse` with `index` starting at the buffer length;
returns `(repeat, index)`. -/
def scan_rev (sn : Nat) : List Segment → Nat → Bool × Nat
  | [], index => (false, index)
  | segment :: rest, index =>
    if sn = segment.sequence_num then (true, index)
    else if segment.sequence_num < sn then (false, index)
    else scan_rev sn rest (index - 1)

/-- `ReliableConnection::parse_data`, the promotion walk over `recv_buffer`:
counts the prefix of segments whose `sequence_num` matches the running
`next_recv_sequence_num` while the queue has room; returns the count and the
advanced `next_recv_sequence_num`. -/
def promote_walk (recv_window_size : Nat) :
    List Segment → Nat → Nat → Nat × Nat
  | [], next_recv, _ => (0, next_recv)
  | segment :: rest, next_recv, queue_len =>
    if segment.sequence_num = next_recv ∧ queue_len < recv_window_size then
      let r := promote_walk recv_window_size rest (u32add next_recv 1) (queue_len + 1)
      (r.1 + 1, r.2)
    else (0, next_recv)

/-- `ReliableConnection::parse_data(segment)`. -/
def ConnState.parse_data (s : ConnState) (segment : Segment) : ConnState :=
  let sn := segment.sequence_num
  if u32add s.next_recv_sequence_num s.recv_window_size ≤ sn ∨
      sn < s.next_recv_sequence_num then s
  else
    let scanned := scan_rev sn s.recv_buffer.reverse s.recv_buffer.length
    let buf :=
      if scanned.1 then s.recv_buffer
      else s.recv_buffer.take scanned.2 ++ segment :: s.recv_buffer.drop scanned.2
    let moved := promote_walk s.recv_window_size buf s.next_recv_sequence_num s.recv_queue.length
    { s with
      recv_buffer := buf.drop moved.1
      recv_queue := s.recv_queue ++ buf.take moved.1
      next_recv_sequence_num := moved.2 }

/-- One decoded wire record, in the order the `input` cursor reads it. -/
structure WireSegment where
  session_id : Nat
  command : Nat
  fragment_id : Nat
  window_size : Nat
  timestamp : Nat
  sequence_num : Nat
  unacked_sequence_num : Nat
  data : List Nat
deriving Repr, DecidableEq

/-- `input`'s PUSH branch builds a `Segment::default()` and copies the decoded
header fields and payload into it. -/
def WireSegment.toSegment (w : WireSegment) : Segment :=
  { session_id := w.session_id
    command := w.command
    fragment_id := w.fragment_id
    window_size := w.window_size
    timestamp := w.timestamp
    sequence_num := w.sequence_num
    unacked_sequence_num := w.unacked_sequence_num
    data := w.data }

/-- The body of `ReliableConnection::input`'s segment loop, after the session
and command validation: window capture, `parse_unacked`/`shrink_buffer`, then
the per-command processing.  Returns the state and the updated
`(flag, maxack)` fast-ack bookkeeping. -/
def input_segment (s : ConnState) (w : WireSegment) (flag : Bool) (maxack : Nat) :
    ConnState × Bool × Nat :=
  let s := { s with remote_window_size := w.window_size }
  let s := (s.parse_unacked w.unacked_sequence_num).shrink_buffer
  if w.command = CMD_ACK then
    let rtt := time_diff s.current_time w.timestamp
    let s := if 0 ≤ rtt then s.update_ack rtt.toNat else s
    let s := (s.parse_ack w.sequence_num).shrink_buffer
    if !flag then (s, true, w.sequence_num)
    else if maxack < w.sequence_num then (s, flag, w.sequence_num)
    else (s, flag, maxack)
  else if w.command = CMD_PUSH then
    if w.sequence_num < u32add s.next_recv_sequence_num s.recv_window_size then
      let s := { s with ack_list := s.ack_list ++ [(w.sequence_num, w.timestamp)] }
      if s.next_recv_sequence_num ≤ w.sequence_num then
        (s.parse_data w.toSegment, flag, maxack)
      else (s, flag, maxack)
    else (s, flag, maxack)
  else if w.command = CMD_WASK then
    ({ s with probe := s.probe ||| ASK_TELL }, flag, maxack)
  else (s, flag, maxack)

/-- `ReliableConnection::input`'s segment loop with its validation: a session
mismatch or an invalid command aborts the call, keeping the effects of the
segments already processed. -/
def input_loop (s : ConnState) (flag : Bool) (maxack : Nat) :
    List WireSegment → ConnState × Bool × Nat × Option ProtocolError
  | [] => (s, flag, maxack, none)
  | w :: rest =>
    if w.session_id ≠ s.session_id then
      (s, flag, maxack, some ProtocolError.InvalidSessionId)
    else if w.command ≠ CMD_PUSH ∧ w.command ≠ CMD_ACK ∧
        w.command ≠ CMD_WASK ∧ w.command ≠ CMD_WINS then
      (s, flag, maxack, some ProtocolError.InvalidCommand)
    else
      let r := input_segment s w flag maxack
      input_loop r.1 r.2.1 r.2.2 rest

/-- The congestion-window growth block at the end of
`ReliableConnection::input` (`connection.rs:259-279`), run when
`unacked_send_sequence_num` advanced past its value at entry (note the source
runs it regardless of `use_congestion_control`). -/
def congestion_update (old_unacked : Nat) (s : ConnState) : ConnState :=
  if old_unacked < s.unacked_send_sequence_num then
    if s.congestion_window_size < s.remote_window_size then
      let mss := s.max_segment_size
      let s : ConnState :=
        if s.congestion_window_size < s.ssthresh then
          { s with congestion_window_size := s.congestion_window_size + 1,
                   incr := u32add s.incr mss }
        else
          let incr := if s.incr < mss then mss else s.incr
          let incr := u32add incr (u32add ((u32mul mss mss) / incr) (mss / 16))
          let s := { s with incr := incr }
          if u32mul (s.congestion_window_size + 1) mss ≤ s.incr then
            { s with congestion_window_size := s.congestion_window_size + 1 }
          else s
      if s.remote_window_size < s.congestion_window_size then
        { s with congestion_window_size := s.remote_window_size,
                 incr := u32mul s.remote_window_size mss }
      else s
    else s
  else s

/-- `ReliableConnection::input(buffer)`, over the decoded wire records.
After the loop: `parse_fastack(maxack)` when an ACK was seen, then the
congestion-window growth when `unacked_send_sequence_num` advanced.  Early
returns from the loop skip that tail, as in the source. -/
def ConnState.input (s : ConnState) (segments : List WireSegment) :
    ConnState × Option ProtocolError :=
  let old_unacked := s.unacked_send_sequence_num
  let r := input_loop s false 0 segments
  match r.2.2.2 with
  | some e => (r.1, some e)
  | none =>
    let s := r.1
    let s := if r.2.1 then s.parse_fastack r.2.2.1 else s
    (congestion_update old_unacked s, none)

/-- `ReliableConnection::send`'s fragmentation loop, counting the iteration
index down: the element produced at countdown `k+1` is fragment
`i = num_fragments - (k+1)`, so its non-streaming `fragment_id` is
`num_fragments - i - 1 = k`. -/
def make_fragments (max_segment_size : Nat) (in_streaming_mode : Bool) :
    Nat → List Nat → List Segment
  | 0, _ => []
  | k + 1, bytes =>
    let new_size := min max_segment_size bytes.length
    { data := bytes.take new_size,
      fragment_id := if !in_streaming_mode then k else 0 } ::
      make_fragments max_segment_size in_streaming_mode k (bytes.drop new_size)

/-- `ReliableConnection::send(payload)`. -/
def ConnState.send (s : ConnState) (payload : List Nat) :
    Except ProtocolError ConnState :=
  if payload.isEmpty then .error .EmptyPayload
  else
    -- streaming-mode append into the tail segment of send_queue
    let appended : Option (List Segment × List Nat) :=
      if s.in_streaming_mode then
        match s.send_queue.getLast? with
        | some segment =>
          let old_len := segment.data.length
          if old_len < s.max_segment_size then
            let new_len := min (old_len + payload.length) s.max_segment_size
            let segment := { segment with
              data := segment.data ++ payload.take (new_len - old_len),
              fragment_id := 0 }
            some (s.send_queue.dropLast ++ [segment], payload.drop (new_len - old_len))
          else none
        | none => none
      else none
    let queue := match appended with | some p => p.1 | none => s.send_queue
    let remaining := match appended with | some p => p.2 | none => payload
    if remaining.isEmpty then .ok { s with send_queue := queue }
    else
      let num_fragments :=
        if remaining.length ≤ s.max_segment_size then 1
        else (remaining.length + s.max_segment_size - 1) / s.max_segment_size
      if RECV_WINDOW_SIZE ≤ num_fragments then .error .FragmentsGreaterThanWindowSize
      else
        let num_fragments := if num_fragments = 0 then 1 else num_fragments
        .ok { s with send_queue :=
          queue ++ make_fragments s.max_segment_size s.in_streaming_mode num_fragments remaining }

/-- `ReliableConnection::peek_size`'s summation loop: add each segment's data
length, stopping after the first segment with `fragment_id == 0`. -/
def peek_total : List Segment → Nat
  | [] => 0
  | segment :: rest =>
    if segment.fragment_id = 0 then segment.data.length
    else segment.data.length + peek_total rest

/-- `ReliableConnection::peek_size`. -/
def ConnState.peek_size (s : ConnState) : Except ProtocolError Nat :=
  match s.recv_queue with
  | [] => .error .IncompleteMessage
  | segment :: _ =>
    if segment.fragment_id = 0 then .ok segment.data.length
    else if s.recv_queue.length < segment.fragment_id + 1 then .error .IncompleteMessage
    else .ok (peek_total s.recv_queue)

/-- `ReliableConnection::recv`'s drain loop: pop segments, concatenating their
data, up to and including the first segment with `fragment_id == 0`; returns
the written bytes and the remaining queue. -/
def recv_drain : List Segment → List Nat × List Segment
  | [] => ([], [])
  | segment :: rest =>
    if segment.fragment_id = 0 then (segment.data, rest)
    else
      let r := recv_drain rest
      (segment.data ++ r.1, r.2)

/-- `ReliableConnection::recv`'s promotion loop: pop from `recv_buffer`; a
popped segment is appended to `recv_queue` only while it is the next expected
one and the queue has room — the segment popped on `break` is dropped, as in
the source.  Returns the remaining buffer, the queue, and the advanced
`next_recv_sequence_num`. -/
def recv_promote (recv_window_size : Nat) :
    List Segment → List Segment → Nat → List Segment × List Segment × Nat
  | [], queue, next_recv => ([], queue, next_recv)
  | segment :: rest, queue, next_recv =>
    if segment.sequence_num = next_recv ∧ queue.length < recv_window_size then
      recv_promote recv_window_size rest (queue ++ [segment]) (u32add next_recv 1)
    else (rest, queue, next_recv)

/-- `ReliableConnection::recv(buffer)`, with the destination buffer abstracted
to its length.  The `write_all` calls cannot fail because the written total
equals `peek_size`, which was checked against the buffer length (the theorem
for C10 below). -/
def ConnState.recv (s : ConnState) (buffer_len : Nat) :
    Except ProtocolError (ConnState × Nat) :=
  if s.recv_queue.isEmpty then .error .EmptyRecvQueue
  else
    match s.peek_size with
    | .error e => .error e
    | .ok peek =>
      if buffer_len < peek then .error .BufferTooSmall
      else
        let fast_recover := s.recv_window_size ≤ s.recv_queue.length
        let drained := recv_drain s.recv_queue
        let promoted := recv_promote s.recv_window_size s.recv_buffer drained.2
          s.next_recv_sequence_num
        let s := { s with
          recv_queue := promoted.2.1
          recv_buffer := promoted.1
          next_recv_sequence_num := promoted.2.2 }
        let s := if s.recv_queue.length < s.recv_window_size ∧ fast_recover then
            { s with probe := s.probe ||| ASK_TELL }
          else s
        .ok (s, drained.1.length)

/-- `ReliableConnection::set_mtu(mtu)`. -/
def ConnState.set_mtu (s : ConnState) (mtu : Nat) : Except ProtocolError ConnState :=
  if mtu < 50 ∨ mtu < PROTOCOL_OVERHEAD then
    .error (.InvalidConfiguration "MTU too small.")
  else
    .ok { s with
      max_transmission_unit := mtu
      max_segment_size := mtu - PROTOCOL_OVERHEAD
      payload_buffer := bytes_resize s.payload_buffer ((mtu + PROTOCOL_OVERHEAD) * 3) }

/-- `ReliableConnection::set_window_sizes(send_size, recv_size)`. -/
def ConnState.set_window_sizes (s : ConnState) (send_size recv_size : Nat) : ConnState :=
  { s with send_window_size := send_size, recv_window_size := recv_size }

/-- The per-segment outcome of `flush`'s transmission loop. -/
structure FlushSegmentResult where
  segment : Segment
  need_send : Bool
  lost : Bool
  change : Bool
  engine_xmit_incr : Nat
deriving Repr, DecidableEq

/-- `flush`'s `rto_min` floor: `calculated_rto >> 3` when nodelay is disabled,
else 0. -/
def flush_rto_min (nodelay calculated_rto : Nat) : Nat :=
  if nodelay = 0 then calculated_rto / 8 else 0

/-- `flush`'s `resent` threshold: `fast_resend` when positive, else `u32::MAX`. -/
def flush_resent (fast_resend : Nat) : Nat :=
  if 0 < fast_resend then fast_resend else U32MAX

/-- The body of `flush`'s loop over `send_buffer` for one `buffer_segment`
(`connection.rs:711-756`): first transmission, RTO-timeout retransmission, or
fast retransmission; on send, the timestamp, window and cumulative-ack fields
are refreshed. -/
def flush_segment (current calculated_rto rto_min resent nodelay
    next_recv_sequence_num window_size : Nat) (buffer_segment : Segment) :
    FlushSegmentResult :=
  let r : FlushSegmentResult :=
    if buffer_segment.xmit = 0 then
      let seg := { buffer_segment with
        xmit := u32add buffer_segment.xmit 1
        rto := calculated_rto
        resend_time := u32add (u32add current calculated_rto) rto_min }
      { segment := seg, need_send := true, lost := false, change := false,
        engine_xmit_incr := 0 }
    else if 0 ≤ time_diff current buffer_segment.resend_time then
      let rto :=
        if nodelay = 0 then u32add buffer_segment.rto calculated_rto
        else u32add buffer_segment.rto (calculated_rto / 4)
      let seg := { buffer_segment with
        xmit := u32add buffer_segment.xmit 1
        rto := rto
        resend_time := u32add current rto }
      { segment := seg, need_send := true, lost := true, change := false,
        engine_xmit_incr := 1 }
    else if resent ≤ buffer_segment.fastack then
      let seg := { buffer_segment with
        xmit := u32add buffer_segment.xmit 1
        fastack := 0
        resend_time := u32add current buffer_segment.rto }
      { segment := seg, need_send := true, lost := false, change := true,
        engine_xmit_incr := 0 }
    else
      { segment := buffer_segment, need_send := false, lost := false,
        change := false, engine_xmit_incr := 0 }
  if r.need_send then
    { r with segment := { r.segment with
        timestamp := current
        window_size := window_size
        unacked_sequence_num := next_recv_sequence_num } }
  else r

/-- `config.rs`: `Config` (the `f32` smoothing factor is omitted: it feeds
only the floating-point bandwidth EWMAs, which no claim touches). -/
structure Config where
  ordered_streams_size : Nat
  sequenced_streams_size : Nat
  max_fragments : Nat
  fragment_size_bytes : Nat
deriving Repr, DecidableEq

/-- `Config::default()`. -/
def Config.default : Config :=
  { ordered_streams_size := 1
    sequenced_streams_size := 1
    max_fragments := 16
    fragment_size_bytes := 1450 }

/-- `Config::max_payload_size_bytes`: note the source computes
`self.max_fragments as usize + self.fragment_size_bytes` — an addition. -/
def Config.max_payload_size_bytes (c : Config) : Nat :=
  c.max_fragments + c.fragment_size_bytes

/-- `guarantees.rs` / `datagram.rs` enums. -/
inductive DeliveryGuarantee where
  | Unreliable
  | Reliable
deriving Repr, DecidableEq

inductive OrderingGuarantee where
  | None
  | Ordered
  | Sequenced
deriving Repr, DecidableEq

/-- `datagram.rs`: `Datagram`. -/
structure Datagram where
  stream_id : Nat
  delivery : DeliveryGuarantee
  ordering : OrderingGuarantee
  payload : List Nat
deriving Repr, DecidableEq

/-- `Datagram::reliable(payload)`. -/
def Datagram.reliable (payload : List Nat) : Datagram :=
  { delivery := .Reliable, ordering := .None, stream_id := 255, payload := payload }

/-- The datagram type `Endpoint::receive` returns (`Full` or `Fragment`,
carrying a byte payload). -/
inductive ReceivedDatagram where
  | Fragment (payload : List Nat)
  | Full (payload : List Nat)
deriving Repr, DecidableEq

/-- `metrics.rs`: `DataPoint::PacketsTooLargeToSend as usize`. -/
def DataPointPacketsTooLargeToSend : Nat := 5

/-- `Metrics::increment` on the `u64` counter array (the `f32` bandwidth
fields are omitted; nothing modelled reads them). -/
def metrics_increment (counters : List Nat) (data_point : Nat) : List Nat :=
  counters.set data_point (counters.getD data_point 0 + 1)

/-- `endpoint.rs`: `Endpoint`.  Each stream is represented by its
`sequence_num` field (`OrderedStream`/`SequencedStream` hold nothing else);
metrics by the counter array. -/
structure Endpoint where
  config : Config
  ordered_streams : List Nat
  sequenced_streams : List Nat
  metrics_counters : List Nat
deriving Repr, DecidableEq

/-- `Endpoint::new(config)`. -/
def Endpoint.new (config : Config) : Endpoint :=
  { config := config
    ordered_streams := List.replicate config.ordered_streams_size 0
    sequenced_streams := List.replicate config.sequenced_streams_size 0
    metrics_counters := List.replicate 9 0 }

/-- `Endpoint::handle_reliable_send(datagram)`. -/
def Endpoint.handle_reliable_send (e : Endpoint) (datagram : Datagram) :
    Endpoint × Except ProtocolError (List Nat) :=
  if e.config.max_payload_size_bytes < datagram.payload.length then
    ({ e with metrics_counters :=
        metrics_increment e.metrics_counters DataPointPacketsTooLargeToSend },
     .error (.PayloadTooLarge datagram.payload.length e.config.max_payload_size_bytes))
  else
    match datagram.ordering with
    | .None => (e, .ok [])
    | .Sequenced =>
      if e.sequenced_streams.length ≤ datagram.stream_id then (e, .error .InvalidStreamId)
      else (e, .ok [])
    | .Ordered =>
      if e.ordered_streams.length ≤ datagram.stream_id then (e, .error .InvalidStreamId)
      else (e, .ok [])

/-- `Endpoint::handle_unreliable_send(datagram)`. -/
def Endpoint.handle_unreliable_send (e : Endpoint) (datagram : Datagram) :
    Endpoint × Except ProtocolError (List Nat) :=
  match datagram.ordering with
  | .None => (e, .ok [])
  | .Sequenced => (e, .ok [])
  | .Ordered =>
    (e, .error (.InvalidConfiguration "Unable to send an unreliable and ordered packet."))

/-- `Endpoint::send(datagram)`. -/
def Endpoint.send (e : Endpoint) (datagram : Datagram) :
    Endpoint × Except ProtocolError (List Nat) :=
  match datagram.delivery with
  | .Reliable => e.handle_reliable_send datagram
  | .Unreliable => e.handle_unreliable_send datagram

/-- `Endpoint::receive(datagram)`: the body is
`Ok(ReceivedDatagram::Full { payload: "".into() })`, ignoring its input and
touching no field of `self`. -/
def Endpoint.receive (e : Endpoint) (datagram : List Nat) :
    Endpoint × Except ProtocolError ReceivedDatagram :=
  (e, .ok (.Full []))

/-- `sequence_buffer.rs`: `HALF_U16_MAX = u16::max_value() / 2 + 1`. -/
def HALF_U16_MAX : Nat := 32768

/-- `fn sequence_num_greater_than(s1, s2) -> bool`. -/
def sequence_num_greater_than (s1 s2 : Nat) : Bool :=
  (decide (s2 < s1) && decide (s1 - s2 ≤ HALF_U16_MAX)) ||
  (decide (s1 < s2) && decide (HALF_U16_MAX < s2 - s1))

/-- `fn sequence_num_less_than(s1, s2) -> bool`. -/
def sequence_num_less_than (s1 s2 : Nat) : Bool :=
  sequence_num_greater_than s2 s1

/-- `sequence_buffer.rs`: `SequenceBuffer<T>`; the two parallel boxed slices
become lists of equal length. -/
structure SequenceBuffer (T : Type) where
  sequence_num : Nat
  sequence_nums : List Nat
  entries : List T
deriving Repr, DecidableEq

/-- `SequenceBuffer::new(size)`. -/
def SequenceBuffer.new (T : Type) [Inhabited T] (size : Nat) : SequenceBuffer T :=
  { sequence_num := 0
    sequence_nums := List.replicate size U32MAX
    entries := List.replicate size default }

/-- `SequenceBuffer::index`. -/
def SequenceBuffer.index {T : Type} (b : SequenceBuffer T) (sequence_num : Nat) : Nat :=
  sequence_num % b.entries.length

/-- `SequenceBuffer::remove(sequence_num)`. -/
def SequenceBuffer.remove {T : Type} [Inhabited T] (b : SequenceBuffer T)
    (sequence_num : Nat) : SequenceBuffer T :=
  { b with
    sequence_nums := b.sequence_nums.set (b.index sequence_num) U32MAX
    entries := b.entries.set (b.index sequence_num) default }

/-- `SequenceBuffer::remove_range(start_sequence, end_sequence)`: the widened
end wraps by `+ (u16::MAX + 1)`, but each removed slot is taken modulo
`u16::max_value()` — `% 65535`, exactly as in the source. -/
def SequenceBuffer.remove_range {T : Type} [Inhabited T] (b : SequenceBuffer T)
    (start_sequence end_sequence : Nat) : SequenceBuffer T :=
  let e := if end_sequence < start_sequence then end_sequence + 65536 else end_sequence
  if e - start_sequence < b.entries.length then
    (List.range (e - start_sequence)).foldl
      (fun acc i => acc.remove ((start_sequence + i) % 65535)) b
  else
    (List.range b.entries.length).foldl (fun acc i => acc.remove i) b

/-- `SequenceBuffer::insert(sequence_num, entry)`; the `Bool` records whether
the source returns `Some` (entry stored) or `None` (refused as too old). -/
def SequenceBuffer.insert {T : Type} [Inhabited T] (b : SequenceBuffer T)
    (sequence_num : Nat) (entry : T) : SequenceBuffer T × Bool :=
  if sequence_num_less_than sequence_num
      ((b.sequence_num + 65536 - b.entries.length % 65536) % 65536) then
    (b, false)
  else
    let sequence_num_plus_1 := (sequence_num + 1) % 65536
    let b :=
      if sequence_num_greater_than sequence_num_plus_1 b.sequence_num then
        { b.remove_range b.sequence_num sequence_num with
            sequence_num := sequence_num_plus_1 }
      else b
    let index := b.index sequence_num
    ({ b with
        sequence_nums := b.sequence_nums.set index sequence_num
        entries := b.entries.set index entry }, true)

/-- `SequenceBuffer::exists(sequence_num)`. -/
def SequenceBuffer.sn_exists {T : Type} (b : SequenceBuffer T) (sequence_num : Nat) : Bool :=
  b.sequence_nums.getD (b.index sequence_num) 0 == sequence_num

/-- `SequenceBuffer::available(sequence_num)`. -/
def SequenceBuffer.available {T : Type} (b : SequenceBuffer T) (sequence_num : Nat) : Bool :=
  b.sequence_nums.getD (b.index sequence_num) 0 == U32MAX

/-- The receive-side observable state of the engine: ack list, out-of-order
buffer, deliverable queue, and the next expected sequence number. -/
def recv_side (s : ConnState) : List (Nat × Nat) × List Segment × List Segment × Nat :=
  (s.ack_list, s.recv_buffer, s.recv_queue, s.next_recv_sequence_num)

/-- `recv_buffer` strictly increasing by `sequence_num`. -/
def sorted_by_sn (l : List Segment) : Prop :=
  l.Pairwise (fun a b => a.sequence_num < b.sequence_num)

/-! Theorems. -/

/-- C1: the claim says a segment leaves `send_buffer` during `input` only when
acknowledged (matching ACK `sequence_num`, or `sequence_num` below a parsed
`unacked_sequence_num`).  The code violates this: `parse_unacked` pops the
front segment *before* testing it, so processing any segment — here a WINS
segment carrying `unacked_sequence_num = 0` — discards the in-flight,
never-acknowledged segment with `sequence_num = 0`. -/
theorem C1_input_discards_unacked_segment :
    (ConnState.input
      { ReliableConnection.new 0 with
          send_buffer := [{ sequence_num := 0, xmit := 1 }],
          next_send_sequence_num := 1 }
      [{ session_id := 0, command := 84, fragment_id := 0, window_size := 32,
         timestamp := 0, sequence_num := 0, unacked_sequence_num := 0,
         data := [] }]).1.send_buffer = [] := by
  rfl

/-- C6: evaluation of `ReliableConnection::new` at the failing input
(any session id, here 0).  Every default matches the claim except the update
interval: the claim (and the source's own doc comment on `nodelay`, plus the
unused `INTERVAL` constant) says 100 ms, but `new` sets `interval := 0`. -/
theorem C6_new_defaults :
    (ReliableConnection.new 0).max_transmission_unit = 1400 ∧
    (ReliableConnection.new 0).send_window_size = 32 ∧
    (ReliableConnection.new 0).recv_window_size = 32 ∧
    (ReliableConnection.new 0).ssthresh = 2 ∧
    (ReliableConnection.new 0).calculated_rto = 200 ∧
    (ReliableConnection.new 0).minimum_rto = 100 ∧
    (ReliableConnection.new 0).fast_resend = 0 ∧
    (ReliableConnection.new 0).nodelay = 0 ∧
    (ReliableConnection.new 0).use_congestion_control = false ∧
    (ReliableConnection.new 0).dead_link = 20 ∧
    (ReliableConnection.new 0).interval = 0 := by
  decide

/-- C7: evaluation at the failing configuration `max_fragments = 1`,
`fragment_size_bytes = 1`.  The claim says the cap is the product (1); the
source adds, giving 2, and its own unit test pins `PayloadTooLarge(12, 2)` for
a 12-byte reliable payload. -/
theorem C7_max_payload_is_addition :
    Config.max_payload_size_bytes
      { Config.default with max_fragments := 1, fragment_size_bytes := 1 } = 2 ∧
    Config.max_payload_size_bytes
      { Config.default with max_fragments := 1, fragment_size_bytes := 1 } ≠ 1 * 1 ∧
    (Endpoint.send
      (Endpoint.new { Config.default with max_fragments := 1, fragment_size_bytes := 1 })
      (Datagram.reliable [72, 101, 108, 108, 111, 32, 119, 111, 114, 108, 100, 33])).2
      = .error (.PayloadTooLarge 12 2) :=
  ⟨rfl, by decide, rfl⟩

/-- C9: `Endpoint::receive` returns `Ok` with an empty `Full` datagram for
every endpoint state and input, never a `Fragment` and never an error, and
leaves the endpoint (streams and metrics included) unchanged. -/
theorem C9_receive_constant (e : Endpoint) (datagram : List Nat) :
    Endpoint.receive e datagram = (e, .ok (.Full [])) := by
  rfl

/-- C8: evaluation at the failing input.  Capacity-4 buffer, head 65534, slot
3 holding sequence number 65535; `insert(1, 5)` satisfies the claim's
precondition (`sn + 1 = 2` is newer than head 65534) and the gap from the old
head up to but excluding 1 is {65534, 65535, 0}.  The claim says every gap
slot is cleared, so `exists(65535)` must be false afterwards; because
`remove_range` reduces the wrapped walk `65534, 65535, 65536` modulo 65535
(not 65536) it clears slots 65534, 0, 1 — never 65535 — and `exists(65535)`
stays true. -/
theorem C8_remove_range_skips_wrap_slot :
    sequence_num_greater_than ((1 + 1) % 65536) 65534 = true ∧
    ((SequenceBuffer.insert
      { sequence_num := 65534,
        sequence_nums := [U32MAX, U32MAX, U32MAX, 65535],
        entries := ([0, 0, 0, 9] : List Nat) } 1 5).1).sn_exists 65535 = true ∧
    (SequenceBuffer.insert
      { sequence_num := 65534,
        sequence_nums := [U32MAX, U32MAX, U32MAX, 65535],
        entries := ([0, 0, 0, 9] : List Nat) } 1 5).2 = true := by
  decide

/-- C4 counterexample: an in-flight segment with `xmit = 1`, own `rto = 100`,
expired timer, in an engine with `calculated_rto = 200` and `nodelay = 0`.
The claim says the segment's rto grows by its own current rto (100 + 100 =
200); the code adds the engine's `calculated_rto`, giving 300. -/
theorem C4_counterexample :
    (flush_segment 1000 200 25 U32MAX 0 0 32
      { sequence_num := 0, xmit := 1, rto := 100, resend_time := 1000 }).segment.rto
      = 300 ∧ (300 : Nat) ≠ 100 + 100 := by
  decide

/-- C5 counterexample: a concrete engine with three in-flight segments and one
ACK for `sequence_num = 1`.  Feeding the ACK once leaves the segment with
`sequence_num = 2` in `send_buffer` (the `parse_unacked` pop discards sn 0,
`parse_ack` removes sn 1); feeding the identical ACK a second time discards
sn 2 as well, so the state after two identical ACKs differs from the state
after one — the claim's idempotence fails. -/
theorem C5_counterexample :
    (ConnState.input
        (ConnState.input
          { ReliableConnection.new 0 with
              send_buffer := [{ sequence_num := 0, xmit := 1 },
                              { sequence_num := 1, xmit := 1 },
                              { sequence_num := 2, xmit := 1 }],
              next_send_sequence_num := 3,
              current_time := 100 }
          [{ session_id := 0, command := 82, fragment_id := 0, window_size := 32,
             timestamp := 90, sequence_num := 1, unacked_sequence_num := 0,
             data := [] }]).1
        [{ session_id := 0, command := 82, fragment_id := 0, window_size := 32,
           timestamp := 90, sequence_num := 1, unacked_sequence_num := 0,
           data := [] }]).1.send_buffer
      ≠
      (ConnState.input
        { ReliableConnection.new 0 with
            send_buffer := [{ sequence_num := 0, xmit := 1 },
                            { sequence_num := 1, xmit := 1 },
                            { sequence_num := 2, xmit := 1 }],
            next_send_sequence_num := 3,
            current_time := 100 }
        [{ session_id := 0, command := 82, fragment_id := 0, window_size := 32,
           timestamp := 90, sequence_num := 1, unacked_sequence_num := 0,
           data := [] }]).1.send_buffer := by
  decide

/-- C3 counterexample: engine with `next_recv_sequence_num = 5` (window
[5, 37)) receiving a stale PUSH with `sequence_num = 0`, which lies outside
the window.  The claim says such a segment is dropped with no change to
`ack_list`; the code appends `(0, 7)` to `ack_list` (only the upper window
bound gates the ack). -/
theorem C3_counterexample :
    (ConnState.input
      { ReliableConnection.new 0 with next_recv_sequence_num := 5 }
      [{ session_id := 0, command := 81, fragment_id := 0, window_size := 32,
         timestamp := 7, sequence_num := 0, unacked_sequence_num := 0,
         data := [] }]).1.ack_list = [(0, 7)] := by
  rfl

/-- C4 (amended): at flush, an in-flight segment already transmitted at least
once (`xmit ≠ 0`) whose retransmission timer has expired
(`time_diff(now, resend_time) ≥ 0`) is retransmitted: its `xmit` is
incremented, its rto grows by the *engine's* `calculated_rto` when
`nodelay = 0` and by `calculated_rto >> 2` when `nodelay > 0` (all modulo
2^32), its `resend_time` becomes `now +` the new rto, and the `lost` flag is
set for congestion control. -/
theorem C4_rto_timeout_retransmission
    (current calculated_rto rto_min resent nodelay next_recv wnd : Nat)
    (seg : Segment) (hx : seg.xmit ≠ 0)
    (ht : 0 ≤ time_diff current seg.resend_time) :
    (flush_segment current calculated_rto rto_min resent nodelay next_recv wnd seg).need_send
        = true ∧
    (flush_segment current calculated_rto rto_min resent nodelay next_recv wnd seg).lost
        = true ∧
    (flush_segment current calculated_rto rto_min resent nodelay next_recv wnd seg).segment.xmit
        = u32add seg.xmit 1 ∧
    (flush_segment current calculated_rto rto_min resent nodelay next_recv wnd seg).segment.rto
        = (if nodelay = 0 then u32add seg.rto calculated_rto
           else u32add seg.rto (calculated_rto / 4)) ∧
    (flush_segment current calculated_rto rto_min resent nodelay next_recv wnd seg).segment.resend_time
        = u32add current
            (flush_segment current calculated_rto rto_min resent nodelay next_recv wnd seg).segment.rto ∧
    (flush_segment current calculated_rto rto_min resent nodelay next_recv wnd seg).engine_xmit_incr
        = 1 := by
  simp only [flush_segment, if_neg hx, if_pos ht, if_pos rfl]
  split <;> simp [u32add]

/-- C4 witness: the amended theorem applied at the counterexample's input. -/
theorem C4_rto_timeout_retransmission_witness :
    (flush_segment 1000 200 25 U32MAX 0 0 32
        { sequence_num := 0, xmit := 1, rto := 100, resend_time := 1000 }).need_send = true ∧
    (flush_segment 1000 200 25 U32MAX 0 0 32
        { sequence_num := 0, xmit := 1, rto := 100, resend_time := 1000 }).lost = true ∧
    (flush_segment 1000 200 25 U32MAX 0 0 32
        { sequence_num := 0, xmit := 1, rto := 100, resend_time := 1000 }).segment.xmit
      = u32add 1 1 ∧
    (flush_segment 1000 200 25 U32MAX 0 0 32
        { sequence_num := 0, xmit := 1, rto := 100, resend_time := 1000 }).segment.rto
      = (if (0 : Nat) = 0 then u32add 100 200 else u32add 100 (200 / 4)) ∧
    (flush_segment 1000 200 25 U32MAX 0 0 32
        { sequence_num := 0, xmit := 1, rto := 100, resend_time := 1000 }).segment.resend_time
      = u32add 1000
          (flush_segment 1000 200 25 U32MAX 0 0 32
            { sequence_num := 0, xmit := 1, rto := 100, resend_time := 1000 }).segment.rto ∧
    (flush_segment 1000 200 25 U32MAX 0 0 32
        { sequence_num := 0, xmit := 1, rto := 100, resend_time := 1000 }).engine_xmit_incr
      = 1 :=
  C4_rto_timeout_retransmission 1000 200 25 U32MAX 0 0 32
    { sequence_num := 0, xmit := 1, rto := 100, resend_time := 1000 }
    (by decide) (by decide)

/-- An ack for a sequence number strictly below every buffered segment leaves
`parse_ack`'s scan without effect. -/
theorem parse_ack_buf_all_gt (sequence_num : Nat) (l : List Segment)
    (h : ∀ x ∈ l, sequence_num < x.sequence_num) :
    parse_ack_buf sequence_num l = l := by
  cases l with
  | nil => rfl
  | cons seg rest =>
    have hlt := h seg (List.mem_cons_self _ _)
    simp [parse_ack_buf, Nat.ne_of_lt hlt, hlt]

/-- C5 (amended): the removal of an acked segment from the send buffer is
idempotent — on a `send_buffer` strictly increasing by `sequence_num`,
applying `parse_ack`'s scan for the same acked `sequence_num` twice equals
applying it once.  (The full `input` path is *not* idempotent: `parse_unacked`
discards a further in-flight segment on each call and `update_ack` re-applies
the RTT sample, changing `floating_rtt`; see the counterexample.) -/
theorem C5_parse_ack_idempotent (sequence_num : Nat) (l : List Segment)
    (hs : sorted_by_sn l) :
    parse_ack_buf sequence_num (parse_ack_buf sequence_num l)
      = parse_ack_buf sequence_num l := by
  induction l with
  | nil => rfl
  | cons seg rest ih =>
    rw [sorted_by_sn, List.pairwise_cons] at hs
    obtain ⟨hall, hrest⟩ := hs
    rcases Nat.lt_trichotomy sequence_num seg.sequence_num with hlt | heq | hgt
    · simp [parse_ack_buf, Nat.ne_of_lt hlt, hlt]
    · simp only [parse_ack_buf, if_pos heq]
      exact parse_ack_buf_all_gt _ _ fun x hx => heq ▸ hall x hx
    · have hne : sequence_num ≠ seg.sequence_num := Nat.ne_of_gt hgt
      have hnlt : ¬ sequence_num < seg.sequence_num := Nat.not_lt.mpr (Nat.le_of_lt hgt)
      simp only [parse_ack_buf, if_neg hne, if_neg hnlt]
      exact congrArg _ (ih hrest)

/-- C5 witness: ack-removal idempotence on a concrete sorted send buffer. -/
theorem C5_parse_ack_idempotent_witness :
    parse_ack_buf 1 (parse_ack_buf 1
        [{ sequence_num := 0 }, { sequence_num := 1 }, { sequence_num := 2 }])
      = parse_ack_buf 1
        [{ sequence_num := 0 }, { sequence_num := 1 }, { sequence_num := 2 }] :=
  C5_parse_ack_idempotent 1
    [{ sequence_num := 0 }, { sequence_num := 1 }, { sequence_num := 2 }]
    (by simp [sorted_by_sn])

/-- `recv`'s drain loop writes exactly the bytes `peek_size`'s summation loop
counts: both walk the same prefix of the queue, up to and including the first
segment with `fragment_id = 0`. -/
theorem recv_drain_length_eq_peek_total (q : List Segment) :
    (recv_drain q).1.length = peek_total q := by
  induction q with
  | nil => rfl
  | cons seg rest ih =>
    by_cases h : seg.fragment_id = 0
    · simp [recv_drain, peek_total, h]
    · simp [recv_drain, peek_total, h, ih]

/-- When `peek_size` succeeds, its result is the summation loop's total. -/
theorem peek_size_eq_peek_total (s : ConnState) (n : Nat)
    (h : s.peek_size = .ok n) : peek_total s.recv_queue = n := by
  unfold ConnState.peek_size at h
  cases hq : s.recv_queue with
  | nil => rw [hq] at h; exact absurd h (by simp)
  | cons seg rest =>
    rw [hq] at h
    dsimp only at h
    by_cases hf : seg.fragment_id = 0
    · rw [if_pos hf] at h
      simp only [Except.ok.injEq] at h
      simp [peek_total, hf, h]
    · rw [if_neg hf] at h
      by_cases hl : (seg :: rest).length < seg.fragment_id + 1
      · rw [if_pos hl] at h; exact absurd h (by simp)
      · rw [if_neg hl] at h
        simp only [Except.ok.injEq] at h
        rw [← hq] at h ⊢
        exact h

/-- C10: whenever `recv` passes its `EmptyRecvQueue` and `BufferTooSmall`
checks, the run of segments it drains from `recv_queue` (up to and including
the first with `fragment_id = 0`, or the whole queue) has total data length
exactly the value `peek_size` returned, so `recv`'s internal
`assert_eq!(cursor.position(), peek_size)` always holds and `recv` returns
`Ok` with that count. -/
theorem C10_recv_drains_peek_size (s : ConnState) (n buffer_len : Nat)
    (hne : s.recv_queue ≠ [])
    (hpeek : s.peek_size = .ok n)
    (hbuf : n ≤ buffer_len) :
    (recv_drain s.recv_queue).1.length = n ∧
    ∃ s', s.recv buffer_len = .ok (s', n) := by
  have hlen : (recv_drain s.recv_queue).1.length = n := by
    rw [recv_drain_length_eq_peek_total]
    exact peek_size_eq_peek_total s n hpeek
  refine ⟨hlen, ?_⟩
  unfold ConnState.recv
  rw [hpeek]
  simp only [List.isEmpty_iff, hne, if_false, if_neg (Nat.not_lt.mpr hbuf), hlen]
  exact ⟨_, rfl⟩

/-- C10 witness: a concrete two-fragment message (lengths 2 and 1), a 5-byte
destination buffer, `peek_size = 3`. -/
theorem C10_recv_drains_peek_size_witness :
    (recv_drain ({ ReliableConnection.new 0 with
        recv_queue := [{ fragment_id := 1, data := [1, 2] },
                       { fragment_id := 0, data := [3] }] } : ConnState).recv_queue).1.length
      = 3 ∧
    ∃ s', ({ ReliableConnection.new 0 with
        recv_queue := [{ fragment_id := 1, data := [1, 2] },
                       { fragment_id := 0, data := [3] }] } : ConnState).recv 5
      = .ok (s', 3) :=
  C10_recv_drains_peek_size
    { ReliableConnection.new 0 with
        recv_queue := [{ fragment_id := 1, data := [1, 2] },
                       { fragment_id := 0, data := [3] }] }
    3 5 (by decide) (by rfl) (by decide)

/-- The fragmentation loop produces exactly `k` segments. -/
theorem make_fragments_length (mss : Nat) (streaming : Bool) :
    ∀ (k : Nat) (bytes : List Nat), (make_fragments mss streaming k bytes).length = k
  | 0, _ => rfl
  | k + 1, bytes => by
    simp [make_fragments, make_fragments_length mss streaming k]

/-- In non-streaming mode the fragmentation loop assigns descending fragment
ids: the element at position `i` of a `k`-fragment run carries
`fragment_id = k - i - 1`. -/
theorem make_fragments_fragment_id (mss : Nat) :
    ∀ (k : Nat) (bytes : List Nat) (i : Nat), i < k →
      ((make_fragments mss false k bytes).getD i default).fragment_id = k - i - 1
  | 0, _, i, hi => absurd hi (Nat.not_lt_zero i)
  | k + 1, bytes, 0, _ => by simp [make_fragments]
  | k + 1, bytes, i + 1, hi => by
    have ih := make_fragments_fragment_id mss k
      (bytes.drop (min mss bytes.length)) i (Nat.lt_of_succ_lt_succ hi)
    simp only [make_fragments, List.getD_cons_succ]
    rw [ih]
    omega

set_option maxRecDepth 8192 in
/-- C2 counterexample: the claim thresholds the fragment-count check on the
connection's receive window (`recv_wnd`), but `send` compares against the
compile-time constant `RECV_WINDOW_SIZE = 32`.  Engine with `mtu = 50`
(`mss = 26`) and `set_window_sizes(32, 64)`, payload of 832 bytes needing
`ceil(832 / 26) = 32` fragments: 32 is below the configured receive window 64,
so the claim says `send` appends 32 segments — the code rejects it with
`FragmentsGreaterThanWindowSize`. -/
theorem C2_counterexample :
    ((ReliableConnection.new 0).set_mtu 50).map
        (fun s => ((s.set_window_sizes 32 64).send (List.replicate 832 7),
                   (s.set_window_sizes 32 64).recv_window_size,
                   (s.set_window_sizes 32 64).max_segment_size))
      = .ok (.error .FragmentsGreaterThanWindowSize, 64, 26) ∧
    (832 + 26 - 1) / 26 < 64 :=
  ⟨rfl, by decide⟩

/-- C2 (amended): `ReliableConnection::send` in non-streaming mode:
`EmptyPayload` on an empty payload; `FragmentsGreaterThanWindowSize` when the
payload would need at least `RECV_WINDOW_SIZE = 32` fragments — the
compile-time default receive window, regardless of the receive window
configured by `set_window_sizes` (see the counterexample); otherwise exactly
`ceil(len / mss) = (len + mss - 1) / mss` segments are appended to
`send_queue`, the one at position `i` carrying
`fragment_id = num_fragments - i - 1`, so the last carries 0. -/
theorem C2_send_fragmentation (s : ConnState) (payload : List Nat)
    (hstream : s.in_streaming_mode = false) (hmss : 0 < s.max_segment_size) :
    (payload = [] → s.send payload = .error .EmptyPayload) ∧
    (payload ≠ [] →
      RECV_WINDOW_SIZE ≤ (payload.length + s.max_segment_size - 1) / s.max_segment_size →
      s.send payload = .error .FragmentsGreaterThanWindowSize) ∧
    (payload ≠ [] →
      (payload.length + s.max_segment_size - 1) / s.max_segment_size < RECV_WINDOW_SIZE →
      ∃ frags : List Segment,
        s.send payload = .ok { s with send_queue := s.send_queue ++ frags } ∧
        frags.length = (payload.length + s.max_segment_size - 1) / s.max_segment_size ∧
        ∀ i : Nat, i < frags.length →
          (frags.getD i default).fragment_id = frags.length - i - 1) := by
  refine ⟨?_, ?_, ?_⟩
  · intro h; subst h; rfl
  · intro hne h32
    have hlen : 1 ≤ payload.length := List.length_pos.mpr hne
    have hpe : payload.isEmpty = false := by
      cases payload with
      | nil => exact absurd rfl hne
      | cons a t => rfl
    have hnum : (if payload.length ≤ s.max_segment_size then 1
        else (payload.length + s.max_segment_size - 1) / s.max_segment_size)
        = (payload.length + s.max_segment_size - 1) / s.max_segment_size := by
      split
      · next hle => exact (Nat.div_eq_of_lt_le (by omega) (by omega)).symm
      · rfl
    simp [ConnState.send, hpe, hstream, hnum, RECV_WINDOW_SIZE] at h32 ⊢
    simp [h32]
  · intro hne hlt
    have hlen : 1 ≤ payload.length := List.length_pos.mpr hne
    have hpe : payload.isEmpty = false := by
      cases payload with
      | nil => exact absurd rfl hne
      | cons a t => rfl
    have hnum : (if payload.length ≤ s.max_segment_size then 1
        else (payload.length + s.max_segment_size - 1) / s.max_segment_size)
        = (payload.length + s.max_segment_size - 1) / s.max_segment_size := by
      split
      · next hle => exact (Nat.div_eq_of_lt_le (by omega) (by omega)).symm
      · rfl
    have hceil1 : 1 ≤ (payload.length + s.max_segment_size - 1) / s.max_segment_size :=
      (Nat.one_le_div_iff hmss).mpr (by omega)
    refine ⟨make_fragments s.max_segment_size false
      ((payload.length + s.max_segment_size - 1) / s.max_segment_size) payload, ?_, ?_, ?_⟩
    · have h32 : ¬ (32 ≤ (payload.length + s.max_segment_size - 1) / s.max_segment_size) := by
        simp only [RECV_WINDOW_SIZE] at hlt
        omega
      have h0 : ¬ ((payload.length + s.max_segment_size - 1) / s.max_segment_size = 0) := by
        omega
      simp [ConnState.send, hpe, hstream, hnum, RECV_WINDOW_SIZE, h32, h0]
    · exact make_fragments_length _ _ _ _
    · intro i hi
      rw [make_fragments_length] at hi
      rw [make_fragments_length]
      exact make_fragments_fragment_id s.max_segment_size _ payload i hi

/-- C2 witness: the spec's scenario — `mss = 26` (mtu 50), a 100-byte payload
splits into 4 fragments with ids [3, 2, 1, 0]. -/
theorem C2_send_fragmentation_witness :
    (List.replicate 100 7 = [] →
      ({ ReliableConnection.new 0 with max_segment_size := 26 } : ConnState).send
        (List.replicate 100 7) = .error .EmptyPayload) ∧
    (List.replicate 100 7 ≠ [] →
      RECV_WINDOW_SIZE ≤ ((List.replicate 100 7).length + 26 - 1) / 26 →
      ({ ReliableConnection.new 0 with max_segment_size := 26 } : ConnState).send
        (List.replicate 100 7) = .error .FragmentsGreaterThanWindowSize) ∧
    ((List.replicate 100 7) ≠ [] →
      ((List.replicate 100 7).length + 26 - 1) / 26 < RECV_WINDOW_SIZE →
      ∃ frags : List Segment,
        ({ ReliableConnection.new 0 with max_segment_size := 26 } : ConnState).send
            (List.replicate 100 7)
          = .ok { ({ ReliableConnection.new 0 with max_segment_size := 26 } : ConnState) with
              send_queue := ({ ReliableConnection.new 0 with
                max_segment_size := 26 } : ConnState).send_queue ++ frags } ∧
        frags.length = ((List.replicate 100 7).length + 26 - 1) / 26 ∧
        ∀ i : Nat, i < frags.length →
          (frags.getD i default).fragment_id = frags.length - i - 1) :=
  C2_send_fragmentation
    { ReliableConnection.new 0 with max_segment_size := 26 }
    (List.replicate 100 7) rfl (by decide)

/-- `parse_data`'s reverse scan on a sorted buffer that does not contain the
incoming sequence number: no repeat is reported, and the returned index splits
the buffer into a prefix strictly below and a suffix strictly above the
incoming sequence number. -/
theorem scan_rev_no_repeat (sn : Nat) (l : List Segment)
    (hs : sorted_by_sn l) (hno : ∀ x ∈ l, x.sequence_num ≠ sn) :
    (scan_rev sn l.reverse l.length).1 = false ∧
    (scan_rev sn l.reverse l.length).2 ≤ l.length ∧
    (∀ x ∈ l.take (scan_rev sn l.reverse l.length).2, x.sequence_num < sn) ∧
    (∀ x ∈ l.drop (scan_rev sn l.reverse l.length).2, sn < x.sequence_num) := by
  induction l using List.reverseRecOn with
  | nil => exact ⟨rfl, Nat.le_refl 0, by simp, by simp⟩
  | append_singleton l a ih =>
    rw [sorted_by_sn, List.pairwise_append] at hs
    obtain ⟨hsl, -, hcross⟩ := hs
    have ha_ne : a.sequence_num ≠ sn := hno a (by simp)
    have hno' : ∀ x ∈ l, x.sequence_num ≠ sn := fun x hx => hno x (by simp [hx])
    have hcross' : ∀ x ∈ l, x.sequence_num < a.sequence_num := fun x hx =>
      hcross x hx a (by simp)
    simp only [List.reverse_append, List.reverse_cons, List.reverse_nil,
      List.nil_append, List.singleton_append, List.length_append,
      List.length_cons, List.length_nil, Nat.zero_add]
    rcases Nat.lt_trichotomy a.sequence_num sn with hlt | heq | hgt
    · simp only [scan_rev, if_neg (Ne.symm ha_ne), if_pos hlt]
      refine ⟨by first | rfl | trivial, by omega, ?_, ?_⟩
      · intro x hx
        rw [List.take_of_length_le (by simp)] at hx
        rcases List.mem_append.mp hx with h | h
        · exact Nat.lt_trans (hcross' x h) hlt
        · rw [List.mem_singleton] at h; subst h; exact hlt
      · intro x hx
        rw [List.drop_eq_nil_of_le (by simp)] at hx
        exact absurd hx (List.not_mem_nil x)
    · exact absurd heq ha_ne
    · have hne : ¬ sn = a.sequence_num := by omega
      have hnlt : ¬ a.sequence_num < sn := by omega
      simp only [scan_rev, if_neg hne, if_neg hnlt, Nat.add_sub_cancel]
      obtain ⟨r1, r2, r3, r4⟩ := ih hsl hno'
      refine ⟨r1, Nat.le_succ_of_le r2, ?_, ?_⟩
      · intro x hx
        rw [List.take_append_of_le_length r2] at hx
        exact r3 x hx
      · intro x hx
        rw [List.drop_append_of_le_length r2] at hx
        rcases List.mem_append.mp hx with h | h
        · exact r4 x h
        · rw [List.mem_singleton] at h; subst h; exact hgt

/-- `parse_data`'s reverse scan on a sorted buffer that already holds the
incoming sequence number reports a repeat. -/
theorem scan_rev_repeat (sn : Nat) (l : List Segment)
    (hs : sorted_by_sn l) (hyes : ∃ x ∈ l, x.sequence_num = sn) :
    (scan_rev sn l.reverse l.length).1 = true := by
  induction l using List.reverseRecOn with
  | nil =>
    obtain ⟨x, hx, -⟩ := hyes
    exact absurd hx (List.not_mem_nil x)
  | append_singleton l a ih =>
    rw [sorted_by_sn, List.pairwise_append] at hs
    obtain ⟨hsl, -, hcross⟩ := hs
    simp only [List.reverse_append, List.reverse_cons, List.reverse_nil,
      List.nil_append, List.singleton_append, List.length_append,
      List.length_cons, List.length_nil, Nat.zero_add]
    by_cases heq : sn = a.sequence_num
    · simp [scan_rev, heq]
    · obtain ⟨x, hx, hxsn⟩ := hyes
      rcases List.mem_append.mp hx with hxl | hxa
      · have hlt : sn < a.sequence_num := hxsn ▸ hcross x hxl a (by simp)
        have hnlt : ¬ a.sequence_num < sn := by omega
        simp only [scan_rev, if_neg heq, if_neg hnlt, Nat.add_sub_cancel]
        exact ih hsl ⟨x, hxl, hxsn⟩
      · rw [List.mem_singleton] at hxa; subst hxa
        exact absurd hxsn (fun h => heq h.symm)

/-- Inserting a segment at a split point of a sorted buffer — everything
before strictly below it, everything after strictly above it — keeps the
buffer sorted. -/
theorem sorted_insert_at (l : List Segment) (seg : Segment) (idx : Nat)
    (hs : sorted_by_sn l)
    (h1 : ∀ x ∈ l.take idx, x.sequence_num < seg.sequence_num)
    (h2 : ∀ x ∈ l.drop idx, seg.sequence_num < x.sequence_num) :
    sorted_by_sn (l.take idx ++ seg :: l.drop idx) := by
  have hsplit : List.Pairwise (fun a b => a.sequence_num < b.sequence_num)
      (l.take idx ++ l.drop idx) := by
    rw [List.take_append_drop]; exact hs
  rw [List.pairwise_append] at hsplit
  obtain ⟨hp1, hp2, hcross⟩ := hsplit
  rw [sorted_by_sn, List.pairwise_append]
  refine ⟨hp1, ?_, ?_⟩
  · rw [List.pairwise_cons]
    exact ⟨h2, hp2⟩
  · intro x hx y hy
    rcases List.mem_cons.mp hy with rfl | hy'
    · exact h1 x hx
    · exact hcross x hx y hy'

/-- The congestion-window block at the end of `input` touches only
`congestion_window_size` and `incr`: the receive side is unchanged. -/
theorem congestion_update_recv (old_unacked : Nat) (s : ConnState) :
    (congestion_update old_unacked s).ack_list = s.ack_list ∧
    (congestion_update old_unacked s).recv_buffer = s.recv_buffer ∧
    (congestion_update old_unacked s).recv_queue = s.recv_queue ∧
    (congestion_update old_unacked s).next_recv_sequence_num
      = s.next_recv_sequence_num := by
  simp only [congestion_update]
  repeat' split
  all_goals trivial

/-- Processing a PUSH record leaves the fast-ack bookkeeping untouched. -/
theorem input_segment_push_flag (s : ConnState) (w : WireSegment)
    (hcmd : w.command = CMD_PUSH) :
    (input_segment s w false 0).2.1 = false := by
  simp only [input_segment, hcmd, CMD_PUSH, CMD_ACK, CMD_WASK]
  norm_num
  repeat' split
  all_goals rfl

/-- `parse_data` never touches the ack list. -/
theorem parse_data_ack_list (s : ConnState) (seg : Segment) :
    (s.parse_data seg).ack_list = s.ack_list := by
  simp only [ConnState.parse_data]
  split <;> rfl

/-- For a single valid PUSH record, the receive side after `input` is the
receive side after the loop body: the fast-ack pass is skipped (no ACK was
seen) and the congestion block touches only the congestion window. -/
theorem input_one_push (s : ConnState) (w : WireSegment)
    (hsid : w.session_id = s.session_id) (hcmd : w.command = CMD_PUSH) :
    (s.input [w]).1.ack_list = (input_segment s w false 0).1.ack_list ∧
    (s.input [w]).1.recv_buffer = (input_segment s w false 0).1.recv_buffer ∧
    (s.input [w]).1.recv_queue = (input_segment s w false 0).1.recv_queue ∧
    (s.input [w]).1.next_recv_sequence_num
      = (input_segment s w false 0).1.next_recv_sequence_num := by
  have hf := input_segment_push_flag s w hcmd
  have hvalid : ¬ (w.command ≠ CMD_PUSH ∧ w.command ≠ CMD_ACK ∧
      w.command ≠ CMD_WASK ∧ w.command ≠ CMD_WINS) := by
    simp [hcmd]
  have hses : ¬ (w.session_id ≠ s.session_id) := not_not_intro hsid
  simp only [ConnState.input, input_loop, if_neg hses, if_neg hvalid, hf,
    Bool.false_eq_true, if_false]
  exact congestion_update_recv s.unacked_send_sequence_num
    (input_segment s w false 0).1

/-- The receive-side effect of `parse_data` for an in-window segment, on a
sorted buffer: the ack list is untouched; the buffer stays strictly
increasing; a new sequence number is inserted (the combined queue-and-buffer
contents gain exactly the segment); a duplicate sequence number leaves the
combined contents unchanged. -/
theorem parse_data_effect (s : ConnState) (seg : Segment)
    (h1 : s.next_recv_sequence_num ≤ seg.sequence_num)
    (h2 : seg.sequence_num < s.next_recv_sequence_num + s.recv_window_size)
    (hnw : s.next_recv_sequence_num + s.recv_window_size < U32MOD)
    (hs : sorted_by_sn s.recv_buffer) :
    (s.parse_data seg).ack_list = s.ack_list ∧
    sorted_by_sn (s.parse_data seg).recv_buffer ∧
    ((∀ x ∈ s.recv_buffer, x.sequence_num ≠ seg.sequence_num) →
      ((s.parse_data seg).recv_queue ++ (s.parse_data seg).recv_buffer).Perm
        (seg :: (s.recv_queue ++ s.recv_buffer))) ∧
    ((∃ x ∈ s.recv_buffer, x.sequence_num = seg.sequence_num) →
      (s.parse_data seg).recv_queue ++ (s.parse_data seg).recv_buffer
        = s.recv_queue ++ s.recv_buffer) := by
  have hguard : ¬ (u32add s.next_recv_sequence_num s.recv_window_size
      ≤ seg.sequence_num ∨ seg.sequence_num < s.next_recv_sequence_num) := by
    rw [u32add, Nat.mod_eq_of_lt hnw]
    omega
  by_cases hdup : ∃ x ∈ s.recv_buffer, x.sequence_num = seg.sequence_num
  · have hscan := scan_rev_repeat seg.sequence_num s.recv_buffer hs hdup
    simp only [ConnState.parse_data, if_neg hguard, hscan, if_true]
    refine ⟨by trivial, ?_, ?_, ?_⟩
    · exact List.Pairwise.sublist (List.drop_sublist _ _) hs
    · intro hno
      obtain ⟨x, hx, hxe⟩ := hdup
      exact absurd hxe (hno x hx)
    · intro _
      rw [List.append_assoc, List.take_append_drop]
  · have hno : ∀ x ∈ s.recv_buffer, x.sequence_num ≠ seg.sequence_num := by
      intro x hx he
      exact hdup ⟨x, hx, he⟩
    obtain ⟨r1, r2, r3, r4⟩ := scan_rev_no_repeat seg.sequence_num s.recv_buffer hs hno
    have hsorted := sorted_insert_at s.recv_buffer seg
      (scan_rev seg.sequence_num s.recv_buffer.reverse s.recv_buffer.length).2 hs r3 r4
    simp only [ConnState.parse_data, if_neg hguard, r1, Bool.false_eq_true, if_false]
    refine ⟨by trivial, ?_, ?_, ?_⟩
    · exact List.Pairwise.sublist (List.drop_sublist _ _) hsorted
    · intro _
      rw [List.append_assoc, List.take_append_drop]
      refine List.Perm.trans (List.Perm.append_left s.recv_queue ?_) List.perm_middle
      have hm := @List.perm_middle _ seg
        (s.recv_buffer.take (scan_rev seg.sequence_num s.recv_buffer.reverse
          s.recv_buffer.length).2)
        (s.recv_buffer.drop (scan_rev seg.sequence_num s.recv_buffer.reverse
          s.recv_buffer.length).2)
      rw [List.take_append_drop] at hm
      exact hm
    · intro hyes
      obtain ⟨x, hx, hxe⟩ := hyes
      exact absurd hxe (hno x hx)

/-- C3 (amended): for a PUSH record processed by `input` (no sequence-space
wrap): a segment at or above `rcv_next + recv_wnd` is dropped with no change
to the receive side; any segment below `rcv_next + recv_wnd` — stale ones with
`sn < rcv_next` included — gets `(sn, ts)` appended to `ack_list`; a stale
segment is not buffered; an in-window segment is inserted into `recv_buffer`
only when no segment with the same `sequence_num` is present, keeping
`recv_buffer` strictly increasing by `sequence_num` (a prefix may move on to
`recv_queue` at once). -/
theorem C3_push_window_handling (s : ConnState) (w : WireSegment)
    (hsid : w.session_id = s.session_id) (hcmd : w.command = CMD_PUSH)
    (hnw : s.next_recv_sequence_num + s.recv_window_size < U32MOD) :
    (s.next_recv_sequence_num + s.recv_window_size ≤ w.sequence_num →
      recv_side (s.input [w]).1 = recv_side s) ∧
    (w.sequence_num < s.next_recv_sequence_num + s.recv_window_size →
      (s.input [w]).1.ack_list = s.ack_list ++ [(w.sequence_num, w.timestamp)]) ∧
    (w.sequence_num < s.next_recv_sequence_num →
      (s.input [w]).1.recv_buffer = s.recv_buffer ∧
      (s.input [w]).1.recv_queue = s.recv_queue) ∧
    (s.next_recv_sequence_num ≤ w.sequence_num →
      w.sequence_num < s.next_recv_sequence_num + s.recv_window_size →
      sorted_by_sn s.recv_buffer →
      sorted_by_sn (s.input [w]).1.recv_buffer ∧
      ((∀ x ∈ s.recv_buffer, x.sequence_num ≠ w.sequence_num) →
        ((s.input [w]).1.recv_queue ++ (s.input [w]).1.recv_buffer).Perm
          (w.toSegment :: (s.recv_queue ++ s.recv_buffer))) ∧
      ((∃ x ∈ s.recv_buffer, x.sequence_num = w.sequence_num) →
        (s.input [w]).1.recv_queue ++ (s.input [w]).1.recv_buffer
          = s.recv_queue ++ s.recv_buffer)) := by
  obtain ⟨p1, p2, p3, p4⟩ := input_one_push s w hsid hcmd
  have heq : input_segment s w false 0 =
      ((if w.sequence_num < u32add s.next_recv_sequence_num s.recv_window_size then
         (if s.next_recv_sequence_num ≤ w.sequence_num then
           ConnState.parse_data
             { (({ s with remote_window_size := w.window_size }).parse_unacked
                 w.unacked_sequence_num).shrink_buffer with
               ack_list := s.ack_list ++ [(w.sequence_num, w.timestamp)] }
             w.toSegment
          else
           { (({ s with remote_window_size := w.window_size }).parse_unacked
               w.unacked_sequence_num).shrink_buffer with
             ack_list := s.ack_list ++ [(w.sequence_num, w.timestamp)] })
        else
         (({ s with remote_window_size := w.window_size }).parse_unacked
           w.unacked_sequence_num).shrink_buffer), false, 0) := by
    simp only [input_segment, hcmd, CMD_PUSH, CMD_ACK]
    norm_num
    dsimp only [ConnState.parse_unacked, ConnState.shrink_buffer]
    split_ifs <;> rfl
  have hred : (input_segment s w false 0).1 =
      (if w.sequence_num < u32add s.next_recv_sequence_num s.recv_window_size then
        (if s.next_recv_sequence_num ≤ w.sequence_num then
          ConnState.parse_data
            { (({ s with remote_window_size := w.window_size }).parse_unacked
                w.unacked_sequence_num).shrink_buffer with
              ack_list := s.ack_list ++ [(w.sequence_num, w.timestamp)] }
            w.toSegment
         else
          { (({ s with remote_window_size := w.window_size }).parse_unacked
              w.unacked_sequence_num).shrink_buffer with
            ack_list := s.ack_list ++ [(w.sequence_num, w.timestamp)] })
       else
        (({ s with remote_window_size := w.window_size }).parse_unacked
          w.unacked_sequence_num).shrink_buffer) := by
    rw [heq]
  refine ⟨?_, ?_, ?_, ?_⟩
  · intro hout
    have hcond : ¬ (w.sequence_num < u32add s.next_recv_sequence_num s.recv_window_size) := by
      rw [u32add, Nat.mod_eq_of_lt hnw]
      omega
    simp only [recv_side]
    rw [p1, p2, p3, p4, hred, if_neg hcond]
    rfl
  · intro hin
    have hcond : w.sequence_num < u32add s.next_recv_sequence_num s.recv_window_size := by
      rw [u32add, Nat.mod_eq_of_lt hnw]
      exact hin
    rw [p1, hred, if_pos hcond]
    by_cases hge : s.next_recv_sequence_num ≤ w.sequence_num
    · rw [if_pos hge, parse_data_ack_list]
    · rw [if_neg hge]
  · intro hlt
    have hcond : w.sequence_num < u32add s.next_recv_sequence_num s.recv_window_size := by
      rw [u32add, Nat.mod_eq_of_lt hnw]
      omega
    have hge : ¬ (s.next_recv_sequence_num ≤ w.sequence_num) := by omega
    constructor
    · rw [p2, hred, if_pos hcond, if_neg hge]
      rfl
    · rw [p3, hred, if_pos hcond, if_neg hge]
      rfl
  · intro hge hin hsort
    have hcond : w.sequence_num < u32add s.next_recv_sequence_num s.recv_window_size := by
      rw [u32add, Nat.mod_eq_of_lt hnw]
      exact hin
    have hres : (input_segment s w false 0).1 =
        ConnState.parse_data
          { (({ s with remote_window_size := w.window_size }).parse_unacked
              w.unacked_sequence_num).shrink_buffer with
            ack_list := s.ack_list ++ [(w.sequence_num, w.timestamp)] }
          w.toSegment := by
      rw [hred, if_pos hcond, if_pos hge]
    have hge' : ({ (({ s with remote_window_size := w.window_size }).parse_unacked
          w.unacked_sequence_num).shrink_buffer with
        ack_list := s.ack_list ++ [(w.sequence_num, w.timestamp)] }
        : ConnState).next_recv_sequence_num ≤ (w.toSegment).sequence_num := hge
    have hin' : (w.toSegment).sequence_num <
        ({ (({ s with remote_window_size := w.window_size }).parse_unacked
            w.unacked_sequence_num).shrink_buffer with
          ack_list := s.ack_list ++ [(w.sequence_num, w.timestamp)] }
          : ConnState).next_recv_sequence_num +
        ({ (({ s with remote_window_size := w.window_size }).parse_unacked
            w.unacked_sequence_num).shrink_buffer with
          ack_list := s.ack_list ++ [(w.sequence_num, w.timestamp)] }
          : ConnState).recv_window_size := hin
    have hnw' : ({ (({ s with remote_window_size := w.window_size }).parse_unacked
          w.unacked_sequence_num).shrink_buffer with
        ack_list := s.ack_list ++ [(w.sequence_num, w.timestamp)] }
        : ConnState).next_recv_sequence_num +
        ({ (({ s with remote_window_size := w.window_size }).parse_unacked
            w.unacked_sequence_num).shrink_buffer with
          ack_list := s.ack_list ++ [(w.sequence_num, w.timestamp)] }
          : ConnState).recv_window_size < U32MOD := hnw
    have hsort' : sorted_by_sn
        ({ (({ s with remote_window_size := w.window_size }).parse_unacked
            w.unacked_sequence_num).shrink_buffer with
          ack_list := s.ack_list ++ [(w.sequence_num, w.timestamp)] }
          : ConnState).recv_buffer := hsort
    obtain ⟨-, q2, q3, q4⟩ := parse_data_effect
      { (({ s with remote_window_size := w.window_size }).parse_unacked
          w.unacked_sequence_num).shrink_buffer with
        ack_list := s.ack_list ++ [(w.sequence_num, w.timestamp)] }
      w.toSegment hge' hin' hnw' hsort'
    refine ⟨?_, ?_, ?_⟩
    · rw [p2, hres]
      exact q2
    · intro hno
      rw [p2, p3, hres]
      exact q3 hno
    · intro hyes
      rw [p2, p3, hres]
      exact q4 hyes

/-- C3 witness: the amended theorem at a concrete engine
(`rcv_next = 5`, window [5, 37), buffer holding sn 6) and a PUSH for sn 7. -/
theorem C3_push_window_handling_witness :
    ((5 : Nat) + 32 ≤ 7 →
      recv_side (ConnState.input
        { ReliableConnection.new 0 with
            next_recv_sequence_num := 5,
            recv_buffer := [{ sequence_num := 6 }] }
        [{ session_id := 0, command := 81, fragment_id := 0, window_size := 32,
           timestamp := 3, sequence_num := 7, unacked_sequence_num := 0,
           data := [9] }]).1
        = recv_side { ReliableConnection.new 0 with
            next_recv_sequence_num := 5,
            recv_buffer := [{ sequence_num := 6 }] }) ∧
    ((7 : Nat) < 5 + 32 →
      (ConnState.input
        { ReliableConnection.new 0 with
            next_recv_sequence_num := 5,
            recv_buffer := [{ sequence_num := 6 }] }
        [{ session_id := 0, command := 81, fragment_id := 0, window_size := 32,
           timestamp := 3, sequence_num := 7, unacked_sequence_num := 0,
           data := [9] }]).1.ack_list
        = [] ++ [(7, 3)]) ∧
    ((7 : Nat) < 5 →
      (ConnState.input
        { ReliableConnection.new 0 with
            next_recv_sequence_num := 5,
            recv_buffer := [{ sequence_num := 6 }] }
        [{ session_id := 0, command := 81, fragment_id := 0, window_size := 32,
           timestamp := 3, sequence_num := 7, unacked_sequence_num := 0,
           data := [9] }]).1.recv_buffer
        = [{ sequence_num := 6 }] ∧
      (ConnState.input
        { ReliableConnection.new 0 with
            next_recv_sequence_num := 5,
            recv_buffer := [{ sequence_num := 6 }] }
        [{ session_id := 0, command := 81, fragment_id := 0, window_size := 32,
           timestamp := 3, sequence_num := 7, unacked_sequence_num := 0,
           data := [9] }]).1.recv_queue
        = []) ∧
    ((5 : Nat) ≤ 7 → (7 : Nat) < 5 + 32 →
      sorted_by_sn [{ sequence_num := 6 }] →
      sorted_by_sn (ConnState.input
        { ReliableConnection.new 0 with
            next_recv_sequence_num := 5,
            recv_buffer := [{ sequence_num := 6 }] }
        [{ session_id := 0, command := 81, fragment_id := 0, window_size := 32,
           timestamp := 3, sequence_num := 7, unacked_sequence_num := 0,
           data := [9] }]).1.recv_buffer ∧
      ((∀ x ∈ ([{ sequence_num := 6 }] : List Segment), x.sequence_num ≠ 7) →
        ((ConnState.input
          { ReliableConnection.new 0 with
              next_recv_sequence_num := 5,
              recv_buffer := [{ sequence_num := 6 }] }
          [{ session_id := 0, command := 81, fragment_id := 0, window_size := 32,
             timestamp := 3, sequence_num := 7, unacked_sequence_num := 0,
             data := [9] }]).1.recv_queue ++
         (ConnState.input
          { ReliableConnection.new 0 with
              next_recv_sequence_num := 5,
              recv_buffer := [{ sequence_num := 6 }] }
          [{ session_id := 0, command := 81, fragment_id := 0, window_size := 32,
             timestamp := 3, sequence_num := 7, unacked_sequence_num := 0,
             data := [9] }]).1.recv_buffer).Perm
          (WireSegment.toSegment
            { session_id := 0, command := 81, fragment_id := 0, window_size := 32,
              timestamp := 3, sequence_num := 7, unacked_sequence_num := 0,
              data := [9] } :: ([] ++ [{ sequence_num := 6 }]))) ∧
      ((∃ x ∈ ([{ sequence_num := 6 }] : List Segment), x.sequence_num = 7) →
        (ConnState.input
          { ReliableConnection.new 0 with
              next_recv_sequence_num := 5,
              recv_buffer := [{ sequence_num := 6 }] }
          [{ session_id := 0, command := 81, fragment_id := 0, window_size := 32,
             timestamp := 3, sequence_num := 7, unacked_sequence_num := 0,
             data := [9] }]).1.recv_queue ++
        (ConnState.input
          { ReliableConnection.new 0 with
              next_recv_sequence_num := 5,
              recv_buffer := [{ sequence_num := 6 }] }
          [{ session_id := 0, command := 81, fragment_id := 0, window_size := 32,
             timestamp := 3, sequence_num := 7, unacked_sequence_num := 0,
             data := [9] }]).1.recv_buffer
          = [] ++ [{ sequence_num := 6 }])) :=
  C3_push_window_handling
    { ReliableConnection.new 0 with
        next_recv_sequence_num := 5,
        recv_buffer := [{ sequence_num := 6 }] }
    { session_id := 0, command := 81, fragment_id := 0, window_size := 32,
      timestamp := 3, sequence_num := 7, unacked_sequence_num := 0, data := [9] }
    rfl rfl (by decide)

end Mercury

